import Mathlib

/-
Shallow embedding of the AI provider orchestration layer of Tale Forge:
  - telemetry buffer and windowed statistics (supabase/functions/_shared/telemetry.ts)
  - retry / fallback request client (supabase/functions/_shared/ai-client.ts)
  - provider configuration, availability and health checks
    (supabase/functions/_shared/ai-config.ts, health-check.ts)

Modelling conventions:
  - JavaScript strings are Lean String; case folding of toLowerCase is modelled
    on ASCII letters, which covers every substring the code compares against.
  - Machine numbers used for delays, multipliers and temperatures are rationals;
    token counts, lengths and response times are naturals; timestamps are
    integers (epoch milliseconds of the stored ISO timestamp string).
  - Wall-clock readings (Date.now differences that populate responseTimeMs of
    client events, and event timestamps) are abstracted: the client trace keeps
    the event kind, provider and message, and the health probe takes the
    elapsed measurement as a parameter.
  - The HTTP transport is an oracle from request and attempt index to either a
    parsed response or the message of the Error thrown for that attempt
    (transport failures and non-ok statuses both surface as thrown Errors).
-/

/-- ASCII case folding of one character, as performed by the JavaScript
method toLowerCase on the ASCII range. -/
def jsLowerChar (c : Char) : Char :=
  if 'A' ≤ c ∧ c ≤ 'Z' then Char.ofNat (c.toNat + 32) else c

/-- Model of the JavaScript expression s.toLowerCase(). -/
def toLowerCase (s : String) : String := String.mk (s.data.map jsLowerChar)

/-- Character-list prefix test, helper for substring search. -/
def isPrefixChars : List Char → List Char → Bool
  | [], _ => true
  | _ :: _, [] => false
  | a :: as, b :: bs => a == b && isPrefixChars as bs

/-- Character-list substring test: the needle occurs contiguously in the
haystack. -/
def hasSubstring : List Char → List Char → Bool
  | [], needle => needle.isEmpty
  | c :: cs, needle => isPrefixChars needle (c :: cs) || hasSubstring cs needle

/-- Model of the JavaScript expression s.includes(sub): case sensitive
contiguous substring containment. -/
def strIncludes (s sub : String) : Bool := hasSubstring s.data sub.data

/-- Status of a telemetry event, from the TelemetryEvent interface of
telemetry.ts. -/
inductive TStatus where
  | success
  | failure
  | fallback
  | retry
  deriving DecidableEq

/-- TelemetryEvent of telemetry.ts. The ISO timestamp string is modelled by
its epoch-millisecond value, which is what getTelemetryStats compares; the
optional requestSize and responseSize fields are never written by this code
and are omitted. -/
structure TelemetryEvent where
  timestamp : Int
  functionName : String
  provider : String
  status : TStatus
  responseTimeMs : Nat
  tokenUsage : Option Nat := none
  errorMessage : Option String := none
  deriving DecidableEq

/-- ProviderStats of telemetry.ts. avgResponseTime is the rounded integer the
code produces; successRate is the two-decimal percentage. -/
structure ProviderStats where
  provider : String
  totalRequests : Nat
  successfulRequests : Nat
  failedRequests : Nat
  fallbackRequests : Nat
  retryRequests : Nat
  avgResponseTime : Int
  totalTokens : Nat
  successRate : ℚ
  deriving DecidableEq

/-- MAX_BUFFER_SIZE of telemetry.ts. -/
def MAX_BUFFER_SIZE : Nat := 1000

/-- AITelemetry.log of telemetry.ts, acting on the module-level buffer: push
the new event, then if the length exceeds MAX_BUFFER_SIZE remove the oldest
event (Array.prototype.shift). The timestamp and functionName the method adds
are already part of the event value here. -/
def AITelemetry.log (buffer : List TelemetryEvent) (e : TelemetryEvent) :
    List TelemetryEvent :=
  let pushed := buffer ++ [e]
  if MAX_BUFFER_SIZE < pushed.length then pushed.tail else pushed

/-- Math.round on the values this code produces (non-negative): half rounds
up. -/
def jsRound (x : ℚ) : Int := Int.floor (x + 1 / 2)

/-- The reduce step of getTelemetryStats that groups events by provider.
JavaScript object keys of string shape preserve insertion order, so groups
appear in order of first occurrence and each group keeps buffer order. -/
def groupByProvider (events : List TelemetryEvent) :
    List (String × List TelemetryEvent) :=
  events.foldl
    (fun acc e =>
      if acc.any (fun pr => pr.1 = e.provider) then
        acc.map (fun pr => if pr.1 = e.provider then (pr.1, pr.2 ++ [e]) else pr)
      else acc ++ [(e.provider, [e])])
    []

/-- The per-provider statistics block of getTelemetryStats. Groups produced by
groupByProvider are never empty, so the division by totalRequests is well
defined on every input the code reaches. -/
def providerStatsOf (provider : String) (events : List TelemetryEvent) :
    ProviderStats :=
  let totalRequests := events.length
  let successfulRequests := (events.filter (fun e => e.status = TStatus.success)).length
  let failedRequests := (events.filter (fun e => e.status = TStatus.failure)).length
  let fallbackRequests := (events.filter (fun e => e.status = TStatus.fallback)).length
  let retryRequests := (events.filter (fun e => e.status = TStatus.retry)).length
  let avgResponseTime : ℚ :=
    ((events.map (fun e => (e.responseTimeMs : ℚ))).sum) / (totalRequests : ℚ)
  let totalTokens := (events.map (fun e => e.tokenUsage.getD 0)).sum
  let successRate : ℚ :=
    if 0 < totalRequests then ((successfulRequests : ℚ) / (totalRequests : ℚ)) * 100 else 0
  { provider := provider
    totalRequests := totalRequests
    successfulRequests := successfulRequests
    failedRequests := failedRequests
    fallbackRequests := fallbackRequests
    retryRequests := retryRequests
    avgResponseTime := jsRound avgResponseTime
    totalTokens := totalTokens
    successRate := (jsRound (successRate * 100) : ℚ) / 100 }

/-- Statistics of a list of events: group by provider, then compute the
per-provider block. -/
def statsOfEvents (events : List TelemetryEvent) : List ProviderStats :=
  (groupByProvider events).map (fun pr => providerStatsOf pr.1 pr.2)

/-- getTelemetryStats of telemetry.ts. The cutoff mirrors the JavaScript
conditional expression timeWindow ? now - timeWindow : 0, in which the number
0 is falsy, so a zero window takes the same branch as an absent window. -/
def getTelemetryStats (buffer : List TelemetryEvent) (now : Int)
    (timeWindow : Option Int) : List ProviderStats :=
  let cutoffTime : Int :=
    match timeWindow with
    | some w => if w = 0 then 0 else now - w
    | none => 0
  statsOfEvents (buffer.filter (fun e => cutoffTime < e.timestamp))

/-- AIProvider of ai-config.ts. -/
structure AIProvider where
  name : String
  baseUrl : String
  model : String
  maxTokens : Nat
  temperature : ℚ
  deriving DecidableEq

/-- Role of a chat message in the AIRequest shape of ai-client.ts. -/
inductive ChatRole where
  | system
  | user
  | assistant
  deriving DecidableEq

/-- One entry of the messages array of AIRequest. -/
structure ChatMessage where
  role : ChatRole
  content : String
  deriving DecidableEq

/-- AIRequest of ai-client.ts. -/
structure AIRequest where
  model : String
  messages : List ChatMessage
  max_tokens : Nat
  temperature : ℚ
  deriving DecidableEq

/-- The usage block of AIResponse. -/
structure AIUsage where
  total_tokens : Nat
  deriving DecidableEq

/-- The message block of one choice of AIResponse. -/
structure AIMessageBody where
  content : String
  deriving DecidableEq

/-- One entry of the choices array of AIResponse. -/
structure AIChoice where
  message : AIMessageBody
  deriving DecidableEq

/-- AIResponse of ai-client.ts. -/
structure AIResponse where
  choices : List AIChoice
  usage : Option AIUsage := none
  deriving DecidableEq

/-- RetryConfig of ai-client.ts. -/
structure RetryConfig where
  maxRetries : Nat
  baseDelayMs : ℚ
  maxDelayMs : ℚ
  backoffMultiplier : ℚ
  deriving DecidableEq

/-- DEFAULT_RETRY_CONFIG of ai-client.ts. -/
def DEFAULT_RETRY_CONFIG : RetryConfig :=
  { maxRetries := 2, baseDelayMs := 1000, maxDelayMs := 8000, backoffMultiplier := 2 }

/-- AIClient.isRetryableError of ai-client.ts: lowercase the message, then run
the chain of substring checks in source order. -/
def isRetryableError (errMsg : String) : Bool :=
  let message := toLowerCase errMsg
  if strIncludes message "429" || strIncludes message "rate limit" then true
  else if strIncludes message "502" || strIncludes message "503" || strIncludes message "504" then true
  else if strIncludes message "timeout" || strIncludes message "network" then true
  else if strIncludes message "connection" then true
  else if strIncludes message "401" || strIncludes message "403" || strIncludes message "unauthorized" then false
  else if strIncludes message "400" || strIncludes message "bad request" then false
  else if strIncludes message "404" || strIncludes message "not found" then false
  else false

/-- AIClient.adaptRequestForProvider of ai-client.ts: spread copy of the
request, then the switch on the provider name. The OVH and OpenAI cases clamp
max_tokens to the minimum of the requested value and the provider cap; the
default case overwrites max_tokens with the provider cap. -/
def adaptRequestForProvider (request : AIRequest) (provider : AIProvider) :
    AIRequest :=
  if provider.name = "OVH" then
    { request with
        model := provider.model
        max_tokens := min request.max_tokens provider.maxTokens }
  else if provider.name = "OpenAI" then
    { request with
        model := provider.model
        max_tokens := min request.max_tokens provider.maxTokens }
  else
    { request with
        model := provider.model
        max_tokens := provider.maxTokens }

/-- The backoff delay computed at the top of loop iteration number attempt
(for attempt at least 1) in AIClient.makeRequest:
Math.min(baseDelayMs * backoffMultiplier ^ (attempt - 1), maxDelayMs). -/
def backoffDelay (cfg : RetryConfig) (attempt : Nat) : ℚ :=
  min (cfg.baseDelayMs * cfg.backoffMultiplier ^ (attempt - 1)) cfg.maxDelayMs

/-- One telemetry call made through a PerformanceTimer during a client run.
The retry event carries the attempt index (its recorded errorMessage is the
text Retry attempt followed by that index); elapsed wall-clock times are
abstracted away. -/
inductive ClientEvent where
  | retry (provider : String) (attempt : Nat)
  | success (provider : String) (tokenUsage : Option Nat)
  | failure (provider : String) (errorMessage : String)
  | fallback (provider : String) (errorMessage : String)
  deriving DecidableEq

/-- Observable outcome of one AIClient.makeRequest run: the returned response
or thrown error message, the telemetry events in emission order, the backoff
sleeps in order, and the number of HTTP attempts issued. -/
structure RunTrace where
  result : Except String AIResponse
  events : List ClientEvent
  sleeps : List ℚ
  httpAttempts : Nat

/-- The retry loop body of AIClient.makeRequest. The first argument of the
recursion is the current attempt index, the second the number of loop
iterations still permitted (makeRequest starts with maxRetries + 1, matching
the loop bound attempt <= maxRetries), the third the lastError variable.
Exhausting the iteration budget corresponds to the code after the loop, which
logs a failure with the last error and rethrows it. -/
def makeRequestGo (cfg : RetryConfig) (providerName : String)
    (request : AIRequest) (http : AIRequest → Nat → Except String AIResponse) :
    Nat → Nat → Option String → RunTrace
  | _, 0, lastError =>
      { result := .error (lastError.getD "Unexpected error in retry logic")
        events := [.failure providerName (lastError.getD "Unknown error")]
        sleeps := []
        httpAttempts := 0 }
  | attempt, fuel + 1, _ =>
      let preEvents : List ClientEvent :=
        if 0 < attempt then [.retry providerName attempt] else []
      let preSleeps : List ℚ :=
        if 0 < attempt then [backoffDelay cfg attempt] else []
      match http request attempt with
      | .ok data =>
          { result := .ok data
            events := preEvents ++
              [.success providerName (data.usage.map (fun u => u.total_tokens))]
            sleeps := preSleeps
            httpAttempts := 1 }
      | .error msg =>
          if isRetryableError msg = false ∨ attempt = cfg.maxRetries then
            { result := .error msg
              events := preEvents ++ [.failure providerName msg]
              sleeps := preSleeps
              httpAttempts := 1 }
          else
            let rest := makeRequestGo cfg providerName request http
              (attempt + 1) fuel (some msg)
            { result := rest.result
              events := preEvents ++ rest.events
              sleeps := preSleeps ++ rest.sleeps
              httpAttempts := 1 + rest.httpAttempts }

/-- AIClient.makeRequest of ai-client.ts: run the loop from attempt 0 with
maxRetries + 1 permitted iterations and no last error. -/
def makeRequest (cfg : RetryConfig) (providerName : String)
    (request : AIRequest) (http : AIRequest → Nat → Except String AIResponse) :
    RunTrace :=
  makeRequestGo cfg providerName request http 0 (cfg.maxRetries + 1) none

/-- Observable outcome of one AIClient.makeRequestWithFallback run. The
fallbackInvoked flag records whether the catch branch around the primary call
ran, which is exactly when the fallback provider is attempted. -/
structure FallbackRun where
  result : Except String (AIResponse × AIProvider)
  events : List ClientEvent
  sleeps : List ℚ
  fallbackInvoked : Bool

/-- AIClient.makeRequestWithFallback of ai-client.ts: run the primary, and on
its failure record a fallback event for the primary, adapt the request, run
the fallback, and on a second failure throw the combined message built by the
source string concatenation. -/
def makeRequestWithFallback (cfg : RetryConfig)
    (primaryProvider fallbackProvider : AIProvider) (request : AIRequest)
    (primaryHttp fallbackHttp : AIRequest → Nat → Except String AIResponse) :
    FallbackRun :=
  let primaryRun := makeRequest cfg primaryProvider.name request primaryHttp
  match primaryRun.result with
  | .ok response =>
      { result := .ok (response, primaryProvider)
        events := primaryRun.events
        sleeps := primaryRun.sleeps
        fallbackInvoked := false }
  | .error primaryError =>
      let fallbackEvent : ClientEvent := .fallback primaryProvider.name primaryError
      let fallbackRequest := adaptRequestForProvider request fallbackProvider
      let fallbackRun := makeRequest cfg fallbackProvider.name fallbackRequest fallbackHttp
      match fallbackRun.result with
      | .ok response =>
          { result := .ok (response, fallbackProvider)
            events := primaryRun.events ++ [fallbackEvent] ++ fallbackRun.events
            sleeps := primaryRun.sleeps ++ fallbackRun.sleeps
            fallbackInvoked := true }
      | .error fallbackError =>
          { result := .error
              ("Both AI providers failed. Primary (" ++ primaryProvider.name ++ "): " ++
               primaryError ++ ". " ++
               "Fallback (" ++ fallbackProvider.name ++ "): " ++ fallbackError)
            events := primaryRun.events ++ [fallbackEvent] ++ fallbackRun.events
            sleeps := primaryRun.sleeps ++ fallbackRun.sleeps
            fallbackInvoked := true }

/-- The text provider pair of AI_CONFIG in ai-config.ts. -/
structure TextProviders where
  primary : AIProvider
  fallback : AIProvider

/-- The image provider entry of AI_CONFIG in ai-config.ts. -/
structure ImageProviders where
  primary : AIProvider

/-- AIConfig of ai-config.ts. -/
structure AIConfig where
  text : TextProviders
  image : ImageProviders

/-- AI_CONFIG of ai-config.ts. -/
def AI_CONFIG : AIConfig :=
  { text :=
      { primary :=
          { name := "OpenAI"
            baseUrl := "https://api.openai.com/v1"
            model := "gpt-4o"
            maxTokens := 400
            temperature := 7 / 10 }
        fallback :=
          { name := "OVH"
            baseUrl := "https://oai.endpoints.kepler.ai.cloud.ovh.net/v1"
            model := "Meta-Llama-3_3-70B-Instruct"
            maxTokens := 400
            temperature := 7 / 10 } }
    image :=
      { primary :=
          { name := "OVH_SDXL"
            baseUrl := "https://stable-diffusion-xl.endpoints.kepler.ai.cloud.ovh.net/api"
            model := "stable-diffusion-xl"
            maxTokens := 0
            temperature := 0 } } }

/-- checkProviderAvailability of ai-config.ts. The environment is the
Deno.env.get capability. A key is considered available when it is present,
non-empty (JavaScript truthiness) and does not contain the placeholder
sentinel. -/
def checkProviderAvailability (env : String → Option String)
    (provider : AIProvider) : Bool :=
  if provider.name = "OpenAI" then
    match env "OPENAI_API_KEY" with
    | none => false
    | some key => (key != "") && !(strIncludes key "placeholder")
  else if provider.name = "OVH" then
    match env "OVH_AI_ENDPOINTS_ACCESS_TOKEN" with
    | none => false
    | some key => (key != "") && !(strIncludes key "placeholder")
  else if provider.name = "OVH_SDXL" then
    match env "OVH_AI_ENDPOINTS_ACCESS_TOKEN" with
    | none => false
    | some key => (key != "") && !(strIncludes key "placeholder")
  else false

/-- HealthCheckResult of health-check.ts; the ISO timestamp field is wall
clock and omitted. -/
structure HealthCheckResult where
  provider : String
  isHealthy : Bool
  responseTimeMs : Nat
  error : Option String := none
  deriving DecidableEq

/-- Outcome of one HealthChecker.checkProvider call together with whether the
network probe (performProviderHealthCheck) was invoked. -/
structure ProbeRun where
  result : HealthCheckResult
  networkProbed : Bool
  deriving DecidableEq

/-- HealthChecker.checkProvider of health-check.ts. The probe oracle stands
for performProviderHealthCheck: it yields the health Boolean, or the message
of the Error it throws (including the timeout message). The elapsedMs
parameter is the wall-clock measurement Date.now() - startTime used on the
branches that reach the network. -/
def HealthChecker.checkProvider (env : String → Option String)
    (probe : AIProvider → Except String Bool) (elapsedMs : Nat)
    (provider : AIProvider) : ProbeRun :=
  if checkProviderAvailability env provider = false then
    { result :=
        { provider := provider.name
          isHealthy := false
          responseTimeMs := 0
          error := some "API key not configured or invalid" }
      networkProbed := false }
  else
    match probe provider with
    | .ok isHealthy =>
        { result :=
            { provider := provider.name
              isHealthy := isHealthy
              responseTimeMs := elapsedMs }
          networkProbed := true }
    | .error msg =>
        { result :=
            { provider := provider.name
              isHealthy := false
              responseTimeMs := elapsedMs
              error := some msg }
          networkProbed := true }

/-- A sample telemetry event used by concrete witnesses. -/
def sampleEvent : TelemetryEvent :=
  { timestamp := 100
    functionName := "generate-story-segment"
    provider := "OpenAI"
    status := .success
    responseTimeMs := 50
    tokenUsage := some 10 }

/-- A one-event buffer used by concrete witnesses. -/
def sampleBuffer : List TelemetryEvent := [sampleEvent]

/-- A sample chat-completion request used by concrete witnesses. -/
def sampleRequest : AIRequest :=
  { model := "gpt-4o"
    messages := [{ role := .user, content := "Tell a short story." }]
    max_tokens := 100
    temperature := 7 / 10 }

/-- A sample parsed response used by concrete witnesses. -/
def respA : AIResponse :=
  { choices := [{ message := { content := "Once upon a time." } }]
    usage := some { total_tokens := 7 } }

/-- A second sample parsed response used by concrete witnesses. -/
def respB : AIResponse :=
  { choices := [{ message := { content := "A fallback tale." } }]
    usage := none }

/-- Transport oracle that always times out. -/
def timeoutHttp : AIRequest → Nat → Except String AIResponse :=
  fun _ _ => .error "Request timeout"

/-- Transport oracle that always fails with an authorization error. -/
def unauthorizedHttp : AIRequest → Nat → Except String AIResponse :=
  fun _ _ => .error "HTTP 401: Unauthorized"

/-- Transport oracle that always succeeds with respA. -/
def okHttpA : AIRequest → Nat → Except String AIResponse :=
  fun _ _ => .ok respA

/-- Transport oracle that always succeeds with respB. -/
def okHttpB : AIRequest → Nat → Except String AIResponse :=
  fun _ _ => .ok respB

/-- An environment with no configured secrets. -/
def emptyEnv : String → Option String := fun _ => none

/-- A probe oracle that reports every provider healthy. -/
def trivialProbe : AIProvider → Except String Bool := fun _ => .ok true

/-- A provider outside the OVH and OpenAI switch cases, with a cap above the
sample request. -/
def customProvider : AIProvider :=
  { name := "Mistral"
    baseUrl := "https://example.invalid/v1"
    model := "mistral-large"
    maxTokens := 500
    temperature := 1 }

/-- C2 counterexample: for a provider outside the OVH and OpenAI cases, the
adapted max_tokens is the provider cap, not the minimum of the requested
value and the cap. -/
theorem adaptRequest_clamp_counterexample :
    (adaptRequestForProvider sampleRequest customProvider).max_tokens = 500 ∧
    min sampleRequest.max_tokens customProvider.maxTokens = 100 ∧
    (adaptRequestForProvider sampleRequest customProvider).max_tokens ≠
      min sampleRequest.max_tokens customProvider.maxTokens := by
  refine ⟨rfl, rfl, ?_⟩
  intro h
  simp only [adaptRequestForProvider, sampleRequest, customProvider] at h
  exact absurd h (by decide)

/-- C2 amended: adaptRequestForProvider always substitutes the provider model;
max_tokens becomes the minimum of the requested value and the provider cap
when the provider name is OVH or OpenAI, and the provider cap itself for any
other provider name. -/
theorem adaptRequestForProvider_fields :
    ∀ (request : AIRequest) (provider : AIProvider),
      (adaptRequestForProvider request provider).model = provider.model ∧
      (adaptRequestForProvider request provider).max_tokens =
        (if provider.name = "OVH" ∨ provider.name = "OpenAI" then
          min request.max_tokens provider.maxTokens
        else provider.maxTokens) := by
  intro request provider
  unfold adaptRequestForProvider
  by_cases h1 : provider.name = "OVH" <;>
    by_cases h2 : provider.name = "OpenAI" <;>
    simp [h1, h2]

/-- C10: adaptRequestForProvider leaves the messages and temperature fields of
the request unchanged in every branch. -/
theorem adaptRequestForProvider_frame :
    ∀ (request : AIRequest) (provider : AIProvider),
      (adaptRequestForProvider request provider).messages = request.messages ∧
      (adaptRequestForProvider request provider).temperature = request.temperature := by
  intro request provider
  unfold adaptRequestForProvider
  split
  · exact ⟨rfl, rfl⟩
  · split
    · exact ⟨rfl, rfl⟩
    · exact ⟨rfl, rfl⟩

/-- C6: an error message is classified retryable exactly when its lowercased
text contains one of the eight transient-failure substrings; every other
message, including those matching the fatal table entries and all unmatched
messages, yields false. -/
theorem isRetryableError_iff :
    ∀ msg : String,
      isRetryableError msg =
        ((strIncludes (toLowerCase msg) "429" || strIncludes (toLowerCase msg) "rate limit") ||
         (strIncludes (toLowerCase msg) "502" || strIncludes (toLowerCase msg) "503" ||
          strIncludes (toLowerCase msg) "504") ||
         (strIncludes (toLowerCase msg) "timeout" || strIncludes (toLowerCase msg) "network") ||
         strIncludes (toLowerCase msg) "connection") := by
  intro msg
  unfold isRetryableError
  cases h1 : (strIncludes (toLowerCase msg) "429" || strIncludes (toLowerCase msg) "rate limit") <;>
    cases h2 : (strIncludes (toLowerCase msg) "502" || strIncludes (toLowerCase msg) "503" ||
      strIncludes (toLowerCase msg) "504") <;>
    cases h3 : (strIncludes (toLowerCase msg) "timeout" || strIncludes (toLowerCase msg) "network") <;>
    cases h4 : strIncludes (toLowerCase msg) "connection" <;>
    simp [h1, h2, h3, h4, ite_self]

/-- C9 counterexample: on a provider whose credential does not resolve, the
short-circuit result carries the message API key not configured or invalid,
which differs from the message the claim states. -/
theorem checkProvider_message_counterexample :
    (HealthChecker.checkProvider emptyEnv trivialProbe 0 AI_CONFIG.text.primary).result.error =
      some "API key not configured or invalid" ∧
    (HealthChecker.checkProvider emptyEnv trivialProbe 0 AI_CONFIG.text.primary).result.error ≠
      some "credential not configured" := by
  exact ⟨rfl, by decide⟩

/-- C9 amended: whenever the credential check fails, checkProvider returns an
unhealthy result with response time 0 and error message API key not
configured or invalid, and the probe oracle is never consulted (the outcome
is identical for every probe). -/
theorem checkProvider_short_circuit :
    ∀ (env : String → Option String) (probe : AIProvider → Except String Bool)
      (elapsedMs : Nat) (provider : AIProvider),
      checkProviderAvailability env provider = false →
      HealthChecker.checkProvider env probe elapsedMs provider =
        { result :=
            { provider := provider.name
              isHealthy := false
              responseTimeMs := 0
              error := some "API key not configured or invalid" }
          networkProbed := false } ∧
      ∀ probe2, HealthChecker.checkProvider env probe elapsedMs provider =
        HealthChecker.checkProvider env probe2 elapsedMs provider := by
  intro env probe elapsedMs provider h
  unfold HealthChecker.checkProvider
  rw [h]
  exact ⟨rfl, fun _ => rfl⟩

/-- C9 amended witness at a concrete empty environment and the configured
primary text provider. -/
theorem checkProvider_short_circuit_witness :
    checkProviderAvailability emptyEnv AI_CONFIG.text.primary = false ∧
    HealthChecker.checkProvider emptyEnv trivialProbe 7 AI_CONFIG.text.primary =
      { result :=
          { provider := AI_CONFIG.text.primary.name
            isHealthy := false
            responseTimeMs := 0
            error := some "API key not configured or invalid" }
        networkProbed := false } :=
  ⟨rfl, (checkProvider_short_circuit emptyEnv trivialProbe 7 AI_CONFIG.text.primary rfl).1⟩

/-- C1 counterexample: with window 0 over a one-event buffer the statistics
are not empty, because the number 0 is falsy in the cutoff conditional; the
zero window is treated exactly like an absent window. -/
theorem getTelemetryStats_zero_window_counterexample :
    getTelemetryStats sampleBuffer 100 (some 0) ≠ [] ∧
    getTelemetryStats sampleBuffer 100 (some 0) =
      getTelemetryStats sampleBuffer 100 none := by
  constructor
  · have hl : (getTelemetryStats sampleBuffer 100 (some 0)).length = 1 := rfl
    intro h
    rw [h] at hl
    exact absurd hl (by decide)
  · rfl

/-- C1 amended: a window equal to 0 is treated like an absent window (both
produce cutoff 0); with no window given, the statistics aggregate the events
with positive timestamp, hence the entire buffer whenever every stored
timestamp is positive. -/
theorem getTelemetryStats_window_behavior :
    ∀ (buffer : List TelemetryEvent) (now : Int),
      getTelemetryStats buffer now (some 0) = getTelemetryStats buffer now none ∧
      ((∀ e ∈ buffer, 0 < e.timestamp) →
        getTelemetryStats buffer now none = statsOfEvents buffer) := by
  intro buffer now
  constructor
  · rfl
  · intro h
    unfold getTelemetryStats
    have hf : buffer.filter (fun e => (0 : Int) < e.timestamp) = buffer := by
      rw [List.filter_eq_self]
      intro a ha
      simpa using h a ha
    simpa using congrArg statsOfEvents hf

/-- C1 amended witness on the concrete one-event buffer with positive
timestamp. -/
theorem getTelemetryStats_window_behavior_witness :
    (∀ e ∈ sampleBuffer, 0 < e.timestamp) ∧
    getTelemetryStats sampleBuffer 100 none = statsOfEvents sampleBuffer :=
  ⟨by decide, (getTelemetryStats_window_behavior sampleBuffer 100).2 (by decide)⟩

/-- C5: when the first attempt fails with a fatally classified error, the run
makes exactly one HTTP attempt, emits no retry event, emits exactly one
failure event carrying that message, sleeps never, and fails with that
message. -/
theorem fatal_error_single_attempt :
    ∀ (cfg : RetryConfig) (providerName : String) (request : AIRequest)
      (http : AIRequest → Nat → Except String AIResponse) (msg : String),
      http request 0 = .error msg →
      isRetryableError msg = false →
      makeRequest cfg providerName request http =
        { result := .error msg
          events := [.failure providerName msg]
          sleeps := []
          httpAttempts := 1 } := by
  intro cfg providerName request http msg h hr
  unfold makeRequest makeRequestGo
  rw [h]
  simp [hr]

/-- C5 witness: the always-unauthorized transport under the default retry
configuration makes one attempt and fails with the 401 message. -/
theorem fatal_error_single_attempt_witness :
    unauthorizedHttp sampleRequest 0 = .error "HTTP 401: Unauthorized" ∧
    isRetryableError "HTTP 401: Unauthorized" = false ∧
    makeRequest DEFAULT_RETRY_CONFIG "OpenAI" sampleRequest unauthorizedHttp =
      { result := .error "HTTP 401: Unauthorized"
        events := [.failure "OpenAI" "HTTP 401: Unauthorized"]
        sleeps := []
        httpAttempts := 1 } :=
  ⟨rfl, by decide,
    fatal_error_single_attempt DEFAULT_RETRY_CONFIG "OpenAI" sampleRequest
      unauthorizedHttp "HTTP 401: Unauthorized" rfl (by decide)⟩

/-- Helper: one log call keeps the buffer within capacity. -/
theorem log_length_le (buffer : List TelemetryEvent) (e : TelemetryEvent)
    (h : buffer.length ≤ MAX_BUFFER_SIZE) :
    (AITelemetry.log buffer e).length ≤ MAX_BUFFER_SIZE := by
  have hdef : AITelemetry.log buffer e =
      if MAX_BUFFER_SIZE < (buffer ++ [e]).length then (buffer ++ [e]).tail
      else buffer ++ [e] := rfl
  rw [hdef]
  split
  all_goals simp_all only [List.length_tail, List.length_append, List.length_cons,
    List.length_nil, not_lt]
  all_goals omega

/-- Helper: filling the buffer from empty keeps the suffix of the inserted
events that fits the capacity, in order. -/
theorem foldl_log_eq_drop (es : List TelemetryEvent) :
    List.foldl AITelemetry.log [] es = es.drop (es.length - MAX_BUFFER_SIZE) := by
  induction es using List.reverseRecOn with
  | nil => rfl
  | append_singleton es e ih =>
    rw [List.foldl_append, List.foldl_cons, List.foldl_nil, ih]
    have hM : MAX_BUFFER_SIZE = 1000 := rfl
    have hdef : ∀ (b : List TelemetryEvent) (x : TelemetryEvent),
        AITelemetry.log b x =
          if MAX_BUFFER_SIZE < (b ++ [x]).length then (b ++ [x]).tail
          else b ++ [x] := fun _ _ => rfl
    rw [hdef]
    by_cases hle : es.length < MAX_BUFFER_SIZE
    · have h0 : es.length - MAX_BUFFER_SIZE = 0 := by omega
      have h1 : (es ++ [e]).length - MAX_BUFFER_SIZE = 0 := by
        simp only [List.length_append, List.length_cons, List.length_nil]
        omega
      rw [h0, h1, List.drop_zero, List.drop_zero, if_neg]
      simp only [List.length_append, List.length_cons, List.length_nil, not_lt]
      omega
    · push_neg at hle
      have hlen : (es.drop (es.length - MAX_BUFFER_SIZE)).length = MAX_BUFFER_SIZE := by
        rw [List.length_drop]; omega
      have hne : es.drop (es.length - MAX_BUFFER_SIZE) ≠ [] := by
        intro hnil
        rw [hnil] at hlen
        simp only [List.length_nil] at hlen
        omega
      obtain ⟨a, t, hat⟩ := List.exists_cons_of_ne_nil hne
      have hct : (a :: t).length = MAX_BUFFER_SIZE := hat ▸ hlen
      rw [hat, if_pos]
      · have hk1 : (es ++ [e]).length - MAX_BUFFER_SIZE =
            (es.length - MAX_BUFFER_SIZE) + 1 := by
          simp only [List.length_append, List.length_cons, List.length_nil]
          omega
        rw [hk1, List.drop_append_of_le_length (by omega)]
        have ht : es.drop ((es.length - MAX_BUFFER_SIZE) + 1) = t := by
          rw [← List.tail_drop, hat]
          rfl
        rw [ht]
        rfl
      · simp only [List.length_append, List.length_cons, List.length_nil] at hct ⊢
        omega

/-- C7: after every log call on a buffer within capacity the length stays at
most MAX_BUFFER_SIZE, and inserting capacity + 1 events into an empty buffer
leaves exactly the events after the first, in their original relative
order (the oldest event is evicted). -/
theorem telemetry_buffer_capacity_fifo :
    (∀ (buffer : List TelemetryEvent) (e : TelemetryEvent),
        buffer.length ≤ MAX_BUFFER_SIZE →
        (AITelemetry.log buffer e).length ≤ MAX_BUFFER_SIZE) ∧
    (∀ es : List TelemetryEvent, es.length = MAX_BUFFER_SIZE + 1 →
        List.foldl AITelemetry.log [] es = es.drop 1) := by
  constructor
  · exact log_length_le
  · intro es h
    rw [foldl_log_eq_drop, h]
    simp [MAX_BUFFER_SIZE]

/-- C7 witness on concrete buffers: the one-event buffer stays within
capacity after a log call, and a replicated list of capacity + 1 events folds
to its own tail. -/
theorem telemetry_buffer_capacity_fifo_witness :
    (sampleBuffer.length ≤ MAX_BUFFER_SIZE ∧
      (AITelemetry.log sampleBuffer sampleEvent).length ≤ MAX_BUFFER_SIZE) ∧
    ((List.replicate (MAX_BUFFER_SIZE + 1) sampleEvent).length = MAX_BUFFER_SIZE + 1 ∧
      List.foldl AITelemetry.log [] (List.replicate (MAX_BUFFER_SIZE + 1) sampleEvent) =
        (List.replicate (MAX_BUFFER_SIZE + 1) sampleEvent).drop 1) :=
  ⟨⟨by decide, telemetry_buffer_capacity_fifo.1 sampleBuffer sampleEvent (by decide)⟩,
   ⟨by simp, telemetry_buffer_capacity_fifo.2 _ (by simp)⟩⟩

/-- Helper: inside the retry loop, every sleep recorded from attempt index
attempt onward is the backoff delay of its attempt index. -/
theorem makeRequestGo_sleeps_formula (cfg : RetryConfig) (providerName : String)
    (request : AIRequest) (http : AIRequest → Nat → Except String AIResponse) :
    ∀ (fuel attempt : Nat) (lastError : Option String) (i : Nat) (d : ℚ),
      1 ≤ attempt →
      (makeRequestGo cfg providerName request http attempt fuel lastError).sleeps.get? i =
        some d →
      d = backoffDelay cfg (attempt + i) := by
  intro fuel
  induction fuel with
  | zero =>
    intro attempt lastError i d _ hget
    simp [makeRequestGo] at hget
  | succ fuel ih =>
    intro attempt lastError i d ha hget
    have hpos : 0 < attempt := ha
    simp only [makeRequestGo] at hget
    cases ho : http request attempt with
    | ok data =>
      rw [ho] at hget
      simp only [hpos, if_true] at hget
      cases i with
      | zero =>
        simp only [List.get?_cons_zero, Option.some.injEq] at hget
        rw [Nat.add_zero]
        exact hget.symm
      | succ i => simp at hget
    | error msg =>
      rw [ho] at hget
      by_cases hcond : isRetryableError msg = false ∨ attempt = cfg.maxRetries
      · simp only [hcond, if_true, hpos] at hget
        cases i with
        | zero =>
          simp only [List.get?_cons_zero, Option.some.injEq] at hget
          rw [Nat.add_zero]
          exact hget.symm
        | succ i => simp at hget
      · simp only [hcond, if_false, hpos, if_true] at hget
        cases i with
        | zero =>
          simp only [List.cons_append, List.nil_append, List.get?_cons_zero,
            Option.some.injEq] at hget
          rw [Nat.add_zero]
          exact hget.symm
        | succ i =>
          simp only [List.cons_append, List.nil_append, List.get?_cons_succ] at hget
          have hrec := ih (attempt + 1) (some msg) i d (by omega) hget
          rw [hrec]
          have harith : attempt + 1 + i = attempt + (i + 1) := by omega
          rw [harith]

/-- C3: in any run, whenever a backoff sleep precedes retry attempt k
(1-indexed, within maxRetries), its duration is exactly
min(baseDelayMs * backoffMultiplier ^ (k - 1), maxDelayMs). -/
theorem backoff_delay_exact :
    ∀ (cfg : RetryConfig) (providerName : String) (request : AIRequest)
      (http : AIRequest → Nat → Except String AIResponse) (k : Nat) (d : ℚ),
      1 ≤ cfg.maxRetries → 1 ≤ k → k ≤ cfg.maxRetries →
      (makeRequest cfg providerName request http).sleeps.get? (k - 1) = some d →
      d = min (cfg.baseDelayMs * cfg.backoffMultiplier ^ (k - 1)) cfg.maxDelayMs := by
  intro cfg providerName request http k d _hm hk _hk2 hget
  unfold makeRequest at hget
  simp only [makeRequestGo] at hget
  cases ho : http request 0 with
  | ok data =>
    rw [ho] at hget
    simp at hget
  | error msg =>
    rw [ho] at hget
    by_cases hcond : isRetryableError msg = false ∨ 0 = cfg.maxRetries
    · simp only [hcond, if_true] at hget
      simp at hget
    · simp only [hcond, if_false] at hget
      simp only [Nat.lt_irrefl, if_false, List.nil_append] at hget
      have hrec := makeRequestGo_sleeps_formula cfg providerName request http
        cfg.maxRetries 1 (some msg) (k - 1) d (by omega) hget
      rw [hrec]
      unfold backoffDelay
      have harith : 1 + (k - 1) - 1 = k - 1 := by omega
      rw [harith]

/-- C3 witness: under the default configuration against an always-timing-out
transport, the first recorded sleep is the delay of retry attempt 1. -/
theorem backoff_delay_exact_witness :
    1 ≤ DEFAULT_RETRY_CONFIG.maxRetries ∧ (1 : Nat) ≤ 1 ∧
    1 ≤ DEFAULT_RETRY_CONFIG.maxRetries ∧
    (makeRequest DEFAULT_RETRY_CONFIG "OpenAI" sampleRequest timeoutHttp).sleeps.get? 0 =
      some (backoffDelay DEFAULT_RETRY_CONFIG 1) ∧
    backoffDelay DEFAULT_RETRY_CONFIG 1 =
      min (DEFAULT_RETRY_CONFIG.baseDelayMs *
        DEFAULT_RETRY_CONFIG.backoffMultiplier ^ (1 - 1)) DEFAULT_RETRY_CONFIG.maxDelayMs :=
  ⟨by decide, by decide, by decide, rfl,
    backoff_delay_exact DEFAULT_RETRY_CONFIG "OpenAI" sampleRequest timeoutHttp 1
      (backoffDelay DEFAULT_RETRY_CONFIG 1) (by decide) (by decide) (by decide) rfl⟩

/-- Helper: definitional unfolding of makeRequestWithFallback with the let
bindings expanded. -/
theorem makeRequestWithFallback_def (cfg : RetryConfig)
    (p f : AIProvider) (request : AIRequest)
    (pHttp fHttp : AIRequest → Nat → Except String AIResponse) :
    makeRequestWithFallback cfg p f request pHttp fHttp =
      match (makeRequest cfg p.name request pHttp).result with
      | .ok response =>
          { result := .ok (response, p)
            events := (makeRequest cfg p.name request pHttp).events
            sleeps := (makeRequest cfg p.name request pHttp).sleeps
            fallbackInvoked := false }
      | .error primaryError =>
          match (makeRequest cfg f.name (adaptRequestForProvider request f) fHttp).result with
          | .ok response =>
              { result := .ok (response, f)
                events := (makeRequest cfg p.name request pHttp).events ++
                  [.fallback p.name primaryError] ++
                  (makeRequest cfg f.name (adaptRequestForProvider request f) fHttp).events
                sleeps := (makeRequest cfg p.name request pHttp).sleeps ++
                  (makeRequest cfg f.name (adaptRequestForProvider request f) fHttp).sleeps
                fallbackInvoked := true }
          | .error fallbackError =>
              { result := .error
                  ("Both AI providers failed. Primary (" ++ p.name ++ "): " ++
                   primaryError ++ ". " ++
                   "Fallback (" ++ f.name ++ "): " ++ fallbackError)
                events := (makeRequest cfg p.name request pHttp).events ++
                  [.fallback p.name primaryError] ++
                  (makeRequest cfg f.name (adaptRequestForProvider request f) fHttp).events
                sleeps := (makeRequest cfg p.name request pHttp).sleeps ++
                  (makeRequest cfg f.name (adaptRequestForProvider request f) fHttp).sleeps
                fallbackInvoked := true } := rfl

/-- C4: the fallback branch runs exactly when the primary run fails; a
primary success returns the primary as used provider and makes the outcome
independent of the fallback transport; a primary failure followed by a
fallback success returns the fallback as used provider. -/
theorem fallback_iff_primary_failure :
    ∀ (cfg : RetryConfig) (p f : AIProvider) (request : AIRequest)
      (pHttp fHttp : AIRequest → Nat → Except String AIResponse),
      ((makeRequestWithFallback cfg p f request pHttp fHttp).fallbackInvoked = true ↔
        ∃ e, (makeRequest cfg p.name request pHttp).result = .error e) ∧
      (∀ resp, (makeRequest cfg p.name request pHttp).result = .ok resp →
        (makeRequestWithFallback cfg p f request pHttp fHttp).result = .ok (resp, p) ∧
        ∀ fHttp2, makeRequestWithFallback cfg p f request pHttp fHttp =
          makeRequestWithFallback cfg p f request pHttp fHttp2) ∧
      (∀ e resp, (makeRequest cfg p.name request pHttp).result = .error e →
        (makeRequest cfg f.name (adaptRequestForProvider request f) fHttp).result = .ok resp →
        (makeRequestWithFallback cfg p f request pHttp fHttp).result = .ok (resp, f)) := by
  intro cfg p f request pHttp fHttp
  refine ⟨?_, ?_, ?_⟩
  · cases hp : (makeRequest cfg p.name request pHttp).result with
    | ok resp0 =>
      constructor
      · intro hinv
        rw [makeRequestWithFallback_def, hp] at hinv
        simp at hinv
      · rintro ⟨e, he⟩
        simp at he
    | error e0 =>
      refine ⟨fun _ => ⟨e0, rfl⟩, fun _ => ?_⟩
      rw [makeRequestWithFallback_def, hp]
      cases hf : (makeRequest cfg f.name (adaptRequestForProvider request f) fHttp).result with
      | ok r => rfl
      | error fe => rfl
  · intro resp hresp
    constructor
    · rw [makeRequestWithFallback_def, hresp]
    · intro fHttp2
      rw [makeRequestWithFallback_def, hresp,
        makeRequestWithFallback_def cfg p f request pHttp fHttp2, hresp]
  · intro e resp hp hf
    rw [makeRequestWithFallback_def, hp, hf]

/-- C4 witness: with an always-succeeding primary transport the primary is
the used provider regardless of the fallback transport; with a fatally
failing primary and a succeeding fallback transport the fallback is the used
provider. -/
theorem fallback_iff_primary_failure_witness :
    (makeRequest DEFAULT_RETRY_CONFIG AI_CONFIG.text.primary.name sampleRequest okHttpA).result =
      .ok respA ∧
    (makeRequestWithFallback DEFAULT_RETRY_CONFIG AI_CONFIG.text.primary
        AI_CONFIG.text.fallback sampleRequest okHttpA okHttpB).result =
      .ok (respA, AI_CONFIG.text.primary) ∧
    (makeRequest DEFAULT_RETRY_CONFIG AI_CONFIG.text.primary.name sampleRequest
        unauthorizedHttp).result = .error "HTTP 401: Unauthorized" ∧
    (makeRequest DEFAULT_RETRY_CONFIG AI_CONFIG.text.fallback.name
        (adaptRequestForProvider sampleRequest AI_CONFIG.text.fallback) okHttpB).result =
      .ok respB ∧
    (makeRequestWithFallback DEFAULT_RETRY_CONFIG AI_CONFIG.text.primary
        AI_CONFIG.text.fallback sampleRequest unauthorizedHttp okHttpB).result =
      .ok (respB, AI_CONFIG.text.fallback) :=
  ⟨rfl,
    ((fallback_iff_primary_failure DEFAULT_RETRY_CONFIG AI_CONFIG.text.primary
      AI_CONFIG.text.fallback sampleRequest okHttpA okHttpB).2.1 respA rfl).1,
    rfl, rfl,
    (fallback_iff_primary_failure DEFAULT_RETRY_CONFIG AI_CONFIG.text.primary
      AI_CONFIG.text.fallback sampleRequest unauthorizedHttp okHttpB).2.2
      "HTTP 401: Unauthorized" respB rfl rfl⟩

/-- Helper: the character data of a string concatenation is the concatenation
of the character data. -/
theorem strData_append (s t : String) : (s ++ t).data = s.data ++ t.data := rfl

/-- C8: when the primary and the fallback run both fail, the combined failure
message is the exact source concatenation, and it contains both underlying
error messages verbatim as contiguous substrings. -/
theorem both_failed_message_preserved :
    ∀ (cfg : RetryConfig) (p f : AIProvider) (request : AIRequest)
      (pHttp fHttp : AIRequest → Nat → Except String AIResponse) (pe fe : String),
      (makeRequest cfg p.name request pHttp).result = .error pe →
      (makeRequest cfg f.name (adaptRequestForProvider request f) fHttp).result = .error fe →
      (makeRequestWithFallback cfg p f request pHttp fHttp).result =
        .error ("Both AI providers failed. Primary (" ++ p.name ++ "): " ++ pe ++ ". " ++
          "Fallback (" ++ f.name ++ "): " ++ fe) ∧
      (∃ l r : List Char,
        ("Both AI providers failed. Primary (" ++ p.name ++ "): " ++ pe ++ ". " ++
          "Fallback (" ++ f.name ++ "): " ++ fe).data = l ++ pe.data ++ r) ∧
      (∃ l r : List Char,
        ("Both AI providers failed. Primary (" ++ p.name ++ "): " ++ pe ++ ". " ++
          "Fallback (" ++ f.name ++ "): " ++ fe).data = l ++ fe.data ++ r) := by
  intro cfg p f request pHttp fHttp pe fe hp hf
  refine ⟨?_, ?_, ?_⟩
  · rw [makeRequestWithFallback_def, hp, hf]
  · refine ⟨("Both AI providers failed. Primary (" ++ p.name ++ "): ").data,
      (". " ++ "Fallback (" ++ f.name ++ "): " ++ fe).data, ?_⟩
    simp only [strData_append, List.append_assoc]
  · refine ⟨("Both AI providers failed. Primary (" ++ p.name ++ "): " ++ pe ++ ". " ++
      "Fallback (" ++ f.name ++ "): ").data, ([] : List Char), ?_⟩
    simp only [strData_append, List.append_assoc, List.append_nil]

/-- C8 witness: both providers failing with a 401 yields the combined message
built from both error texts. -/
theorem both_failed_message_preserved_witness :
    (makeRequest DEFAULT_RETRY_CONFIG AI_CONFIG.text.primary.name sampleRequest
        unauthorizedHttp).result = .error "HTTP 401: Unauthorized" ∧
    (makeRequest DEFAULT_RETRY_CONFIG AI_CONFIG.text.fallback.name
        (adaptRequestForProvider sampleRequest AI_CONFIG.text.fallback)
        unauthorizedHttp).result = .error "HTTP 401: Unauthorized" ∧
    (makeRequestWithFallback DEFAULT_RETRY_CONFIG AI_CONFIG.text.primary
        AI_CONFIG.text.fallback sampleRequest unauthorizedHttp unauthorizedHttp).result =
      .error ("Both AI providers failed. Primary (" ++ AI_CONFIG.text.primary.name ++ "): " ++
        "HTTP 401: Unauthorized" ++ ". " ++
        "Fallback (" ++ AI_CONFIG.text.fallback.name ++ "): " ++ "HTTP 401: Unauthorized") :=
  ⟨rfl, rfl,
    (both_failed_message_preserved DEFAULT_RETRY_CONFIG AI_CONFIG.text.primary
      AI_CONFIG.text.fallback sampleRequest unauthorizedHttp unauthorizedHttp
      "HTTP 401: Unauthorized" "HTTP 401: Unauthorized" rfl rfl).1⟩
